import Mathlib

/-!
Shallow embedding of the pagion messaging front-end:
the supabase SQL routines (`regenerate_profile_uid`, `lookup_profile_by_uid`,
the `messages` / `contacts` / `profiles` schemas and their triggers) and the
client-side handlers in `ChatArea.tsx`, `ContactsList.tsx` and `Settings.tsx`.
-/

namespace Pagion

/-- JavaScript `String.prototype.trim` (and SQL `trim`): strip whitespace
from both ends. Embedded structurally over the character list. -/
def jsTrim (s : String) : String :=
  String.mk
    (((s.toList.dropWhile Char.isWhitespace).reverse.dropWhile
        Char.isWhitespace).reverse)

/-- A row of `public.profiles` (migration 20260118195433). -/
structure Profile where
  user_id : Nat
  name : String
  uid : String
  avatar_color : String
  deriving Repr, DecidableEq

/-- A row of `public.messages` (migration 20260118194351). -/
structure Msg where
  id : Nat
  sender_id : Nat
  receiver_id : Nat
  content : String
  reply_to_id : Option Nat
  is_edited : Bool
  created_at : Int
  updated_at : Int
  deriving Repr, DecidableEq

/-- A row of `public.contacts` (migration 20260118194351). -/
structure ContactEdge where
  id : Nat
  user_id : Nat
  contact_user_id : Nat
  deriving Repr, DecidableEq

/-! ## UID regeneration: `regenerate_profile_uid` (migration 20260119101527) -/

/-- `max_attempts INTEGER := 10` in `regenerate_profile_uid`. -/
def max_attempts : Nat := 10

/-- Errors raised by `regenerate_profile_uid`. -/
inductive RegenError where
  | notAuthorized
  | allocFailed
  deriving Repr, DecidableEq

/-- `UPDATE public.profiles SET uid = new_uid, updated_at = now() WHERE user_id
= p_user_id` raises `unique_violation` exactly when another profile row already
holds `new_uid` (the `uid` column is `UNIQUE`). -/
def uidConflict (db : List Profile) (target : Nat) (new_uid : String) : Bool :=
  db.any fun p => p.user_id ≠ target && p.uid = new_uid

/-- Apply the `UPDATE ... WHERE user_id = p_user_id` once it does not conflict. -/
def setUid (db : List Profile) (target : Nat) (new_uid : String) : List Profile :=
  db.map fun p => if p.user_id = target then { p with uid := new_uid } else p

/-- The `LOOP ... END LOOP` of `regenerate_profile_uid`: generate a candidate,
try the `UPDATE`, on `unique_violation` increment `attempt` and give up once
`attempt >= max_attempts`. `gen i` is the candidate produced on the i-th
iteration (the code draws it from `md5(gen_random_uuid() || clock_timestamp()
|| random())`, an external entropy source we pass in). -/
def regenerateLoop (db : List Profile) (target : Nat) (gen : Nat → String)
    (attempt : Nat) : Except RegenError (String × List Profile) :=
  let new_uid := gen attempt
  if uidConflict db target new_uid then
    if attempt + 1 ≥ max_attempts then
      .error .allocFailed
    else
      regenerateLoop db target gen (attempt + 1)
  else
    .ok (new_uid, setUid db target new_uid)
termination_by max_attempts - attempt
decreasing_by omega

/-- `regenerate_profile_uid(p_user_id)`: authorization check, then the retry
loop starting at `attempt := 0`. -/
def regenerate_profile_uid (auth_uid : Nat) (p_user_id : Nat)
    (db : List Profile) (gen : Nat → String) :
    Except RegenError (String × List Profile) :=
  if auth_uid ≠ p_user_id then .error .notAuthorized
  else regenerateLoop db p_user_id gen 0

/-! ## UID lookup: `lookup_profile_by_uid` (migration 20260119101527) -/

/-- `lookup_profile_by_uid(p_uid)`: returns early (empty) when `p_uid IS NULL
OR length(p_uid) != 8`, otherwise `SELECT user_id, name FROM profiles WHERE
uid = p_uid LIMIT 1`. The result is the `(user_id, name)` pair or nothing. -/
def lookup_profile_by_uid (db : List Profile) (p_uid : Option String) :
    Option (Nat × String) :=
  match p_uid with
  | none => none
  | some u =>
    if u.length ≠ 8 then none
    else (db.find? fun p => p.uid = u).map fun p => (p.user_id, p.name)

/-! ## Client-side UID regeneration: `handleRegenerateUid` (Settings.tsx)

`const newUid = Math.random().toString(36).substring(2, 10);` followed by a
plain `UPDATE profiles SET uid = newUid`. We embed JavaScript's
`Number.prototype.toString(36)` for a non-negative fraction `num/den < 1`
with a terminating base-36 expansion: it prints `"0."` followed by the
base-36 fractional digits with trailing zeros omitted (`(0.5).toString(36)`
is `"0.i"`). -/

/-- The base-36 digit alphabet used by JavaScript `toString(36)`. -/
def base36Digits : List Char := "0123456789abcdefghijklmnopqrstuvwxyz".toList

/-- Base-36 fractional expansion of `num/den` (for `num < den`), stopping when
the remainder is zero; `fuel` bounds the length for termination (JS prints
finitely many digits for any double). -/
def fracDigits36 (fuel num den : Nat) : List Char :=
  match fuel with
  | 0 => []
  | fuel + 1 =>
    if num = 0 then []
    else
      let n := num * 36
      (base36Digits.getD (n / den) '?') :: fracDigits36 fuel (n % den) den

/-- JavaScript `r.toString(36)` for `r = num/den` with `0 < num < den`. -/
def jsToString36 (num den : Nat) : String :=
  "0." ++ String.mk (fracDigits36 20 num den)

/-- JavaScript `s.substring(2, 10)`: the characters at indices 2..9. -/
def jsSubstring2to10 (s : String) : String :=
  String.mk ((s.toList.drop 2).take 8)

/-- `handleRegenerateUid` (Settings.tsx): the new uid written to the profile
row, as a function of the `Math.random()` draw `num/den`. -/
def handleRegenerateUid_newUid (num den : Nat) : String :=
  jsSubstring2to10 (jsToString36 num den)

/-- SQL `substring(s, 1, 8)`: the first 8 characters of `s`. -/
def sqlSubstring1to8 (s : String) : String :=
  String.mk (s.toList.take 8)

/-- The candidate built inside `regenerate_profile_uid`:
`substring(md5(...), 1, 8)` of a 32-hex-character md5 digest. -/
def serverUidCandidate (md5hex : String) : String :=
  sqlSubstring1to8 md5hex

/-! ## Message thread fetch: `fetchMessages` (ChatArea.tsx) -/

/-- The `.or(and(sender_id.eq.self,receiver_id.eq.peer),
and(sender_id.eq.peer,receiver_id.eq.self))` filter of `fetchMessages`. -/
def threadFilter (selfId peerId : Nat) (m : Msg) : Bool :=
  (m.sender_id = selfId && m.receiver_id = peerId) ||
  (m.sender_id = peerId && m.receiver_id = selfId)

/-- The query of `fetchMessages` carries a single
`.order('created_at', { ascending: true })` clause and no secondary key, so
the store may return ANY ordering of the filtered rows that is sorted by
`created_at`. `isFetchResult db self peer l` holds iff `l` is such a
possible result. -/
def isFetchResult (db : List Msg) (selfId peerId : Nat) (l : List Msg) : Prop :=
  l.Perm (db.filter (threadFilter selfId peerId)) ∧
  l.Sorted fun a b => a.created_at ≤ b.created_at

/-- Reply-preview sender attribution in `fetchMessages`:
`replyData.sender_id === user.id ? profile?.name || 'You' :
contact.profile.name`. -/
def previewSenderName (viewerId : Nat) (viewerProfileName : Option String)
    (peerName : String) (replySenderId : Nat) : String :=
  if replySenderId = viewerId then viewerProfileName.getD "You" else peerName

/-- Reply-preview resolution for one fetched message: when `reply_to_id` is
set, look the referenced row up (`.eq('id', msg.reply_to_id).maybeSingle()`);
a missing row leaves the preview absent. Returns `(content, sender_name)`. -/
def resolvePreview (db : List Msg) (viewerId : Nat)
    (viewerProfileName : Option String) (peerName : String) (m : Msg) :
    Option (String × String) :=
  match m.reply_to_id with
  | none => none
  | some rid =>
    (db.find? fun r => r.id = rid).map fun r =>
      (r.content, previewSenderName viewerId viewerProfileName peerName r.sender_id)

/-! ## Sending: `handleSendMessage` (ChatArea.tsx) and the
`validate_message_content` trigger (migration 20260119101527) -/

/-- `const MESSAGE_COOLDOWN = 500; // 500ms between messages` -/
def MESSAGE_COOLDOWN : Int := 500

/-- The `validate_message_content` trigger accepts a row iff the trimmed
content is non-empty and the content is at most 10000 characters. -/
def validate_message_content (content : String) : Bool :=
  ((jsTrim content).length ≠ 0) && (content.length ≤ 10000)

/-- Client chat state relevant to sending: the `lastMessageTime` React state
(initially 0) and the persisted `messages` collection. -/
structure ChatState where
  lastMessageTime : Int
  db : List Msg
  deriving Repr, DecidableEq

/-- `handleSendMessage`: no-op on blank input; silently drop when
`now - lastMessageTime < MESSAGE_COOLDOWN`; otherwise insert the trimmed
content (the storage trigger may still reject it, in which case an error is
toasted and `lastMessageTime` is NOT advanced); on success advance
`lastMessageTime` to `now`. `newId` is the id the store assigns. -/
def handleSendMessage (st : ChatState) (now : Int) (selfId peerId : Nat)
    (newMessage : String) (replyTo : Option Nat) (newId : Nat) : ChatState :=
  if jsTrim newMessage = "" then st
  else if now - st.lastMessageTime < MESSAGE_COOLDOWN then st
  else if !validate_message_content (jsTrim newMessage) then st
  else
    { lastMessageTime := now
      db := st.db ++ [{ id := newId, sender_id := selfId, receiver_id := peerId
                        content := jsTrim newMessage, reply_to_id := replyTo
                        is_edited := false, created_at := now,
                        updated_at := now }] }

/-! ## Editing: `handleEditMessage` (ChatArea.tsx), the
`update_updated_at_column` trigger and the "Users can edit own messages"
row-level policy (migration 20260118194351) -/

/-- `handleEditMessage`: no-op on blank edit content; otherwise
`UPDATE messages SET content = trimmed, is_edited = true WHERE id = mid`.
The `validate_message_content_trigger` fires BEFORE UPDATE: when the new
content (the trimmed edit text the client sends) fails validation the
statement raises and no row changes (the client only toasts an error).
Otherwise row-level security restricts the update to rows with
`sender_id = caller`, and the `update_updated_at_column` trigger sets
`updated_at = now()` on each updated row. Rows the policy hides are simply
untouched. -/
def handleEditMessage (db : List Msg) (caller : Nat) (mid : Nat)
    (editContent : String) (now : Int) : List Msg :=
  if jsTrim editContent = "" then db
  else if !validate_message_content (jsTrim editContent) then db
  else
    db.map fun m =>
      if m.id = mid && m.sender_id = caller then
        { m with content := jsTrim editContent, is_edited := true,
                 updated_at := now }
      else m

/-! ## Deletion: `handleDeleteMessage` (ChatArea.tsx) and
`reply_to_id UUID REFERENCES public.messages(id) ON DELETE SET NULL`
(migration 20260118194351) -/

/-- `DELETE FROM messages WHERE id = mid` together with the foreign-key
action: rows whose `reply_to_id` referenced the deleted row get
`reply_to_id = NULL`. -/
def deleteMessage (db : List Msg) (mid : Nat) : List Msg :=
  (db.filter fun m => m.id ≠ mid).map fun m =>
    if m.reply_to_id = some mid then { m with reply_to_id := none } else m

/-! ## Contacts: `handleAddContact`, `fetchContacts` (ContactsList.tsx) -/

/-- The distinct toasts `handleAddContact` can raise, in source order:
"UID must be exactly 8 characters.", "No user exists with that UID.",
"You can't add yourself as a contact.", "This user is already in your
contacts.", and the generic "Failed to add contact." insert failure. -/
inductive AddContactError where
  | wrongLength
  | notFound
  | selfContact
  | alreadyAdded
  | insertFailed
  deriving Repr, DecidableEq

/-- A contact as held in the component's `contacts` state: the edge id, the
peer's user id, and the joined profile (`name`, `uid`, `avatar_color`). -/
structure ContactView where
  id : Nat
  contact_user_id : Nat
  profile_name : String
  profile_uid : String
  profile_avatar_color : String
  deriving Repr, DecidableEq

/-- `fetchContacts`: select the caller's edges, fetch the matching profiles,
and join, substituting the `{ name: 'Unknown', uid: '????????' ,
avatar_color: '#888888' }` placeholder when a profile is missing. -/
def fetchContacts (edges : List ContactEdge) (profiles : List Profile)
    (selfId : Nat) : List ContactView :=
  (edges.filter fun e => e.user_id = selfId).map fun e =>
    match profiles.find? fun p => p.user_id = e.contact_user_id with
    | some p =>
      { id := e.id, contact_user_id := e.contact_user_id,
        profile_name := p.name, profile_uid := p.uid,
        profile_avatar_color := p.avatar_color }
    | none =>
      { id := e.id, contact_user_id := e.contact_user_id,
        profile_name := "Unknown", profile_uid := "????????",
        profile_avatar_color := "#888888" }

/-- The edge insert behind `handleAddContact`, guarded by the
`UNIQUE(user_id, contact_user_id)` constraint of `public.contacts`. -/
def insertEdge (edges : List ContactEdge) (e : ContactEdge) :
    Except AddContactError (List ContactEdge) :=
  if edges.any fun x =>
      x.user_id = e.user_id && x.contact_user_id = e.contact_user_id then
    .error .insertFailed
  else .ok (edges ++ [e])

/-- `handleAddContact` (ContactsList.tsx): trim, reject wrong length, resolve
the uid through `lookup_profile_by_uid`, reject a miss, reject self, reject a
peer already in the local `contacts` state, then insert the edge. Each check
returns immediately on failure; only when all pass is the insert attempted.
An empty-after-trim input is a silent no-op (`.ok` with edges unchanged and
no new id consumed), mirroring the early `return`. -/
def handleAddContact (selfId : Nat) (searchUid : String)
    (profiles : List Profile) (contacts : List ContactView)
    (edges : List ContactEdge) (newEdgeId : Nat) :
    Except AddContactError (List ContactEdge) :=
  if jsTrim searchUid = "" then .ok edges
  else
    let trimmedUid := jsTrim searchUid
    if trimmedUid.length ≠ 8 then .error .wrongLength
    else
      match lookup_profile_by_uid profiles (some trimmedUid) with
      | none => .error .notFound
      | some (found_user_id, _) =>
        if found_user_id = selfId then .error .selfContact
        else if (contacts.find? fun c =>
            c.contact_user_id = found_user_id).isSome then
          .error .alreadyAdded
        else
          insertEdge edges
            { id := newEdgeId, user_id := selfId,
              contact_user_id := found_user_id }

/-! ## Helper lemmas -/

lemma find?_eq_some_of_unique {α : Type} (l : List α) (pred : α → Bool)
    (a : α) (ha : a ∈ l) (hpa : pred a = true)
    (huniq : ∀ b ∈ l, pred b = true → b = a) : l.find? pred = some a := by
  induction l with
  | nil => cases ha
  | cons x xs ih =>
    by_cases hx : pred x = true
    · have hxa : x = a := huniq x (List.mem_cons_self x xs) hx
      simp [List.find?, hx, hxa, hpa]
    · have hax : a ∈ xs := by
        rcases List.mem_cons.mp ha with h | h
        · exact absurd (h ▸ hpa) hx
        · exact h
      simp only [Bool.not_eq_true] at hx
      simp only [List.find?, hx]
      exact ih hax fun b hb => huniq b (List.mem_cons_of_mem x hb)

lemma regenerateLoop_error_of_conflicts (db : List Profile) (t : Nat)
    (gen : Nat → String) :
    ∀ fuel attempt, max_attempts - attempt = fuel → attempt < max_attempts →
    (∀ i, i < max_attempts → uidConflict db t (gen i) = true) →
    regenerateLoop db t gen attempt = .error .allocFailed := by
  intro fuel
  induction fuel with
  | zero => intro attempt h1 h2 _; omega
  | succ n ih =>
    intro attempt h1 h2 hall
    rw [regenerateLoop]
    simp only [hall attempt h2, if_true]
    by_cases hge : attempt + 1 ≥ max_attempts
    · simp [hge]
    · simp only [if_neg hge]
      exact ih (attempt + 1) (by omega) (by omega) hall

lemma regenerateLoop_ok_of_first_success (db : List Profile) (t : Nat)
    (gen : Nat → String) :
    ∀ fuel attempt k, k - attempt = fuel → attempt ≤ k → k < max_attempts →
    (∀ i, attempt ≤ i → i < k → uidConflict db t (gen i) = true) →
    uidConflict db t (gen k) = false →
    regenerateLoop db t gen attempt = .ok (gen k, setUid db t (gen k)) := by
  intro fuel
  induction fuel with
  | zero =>
    intro attempt k h1 h2 _ _ hok
    have hak : attempt = k := by omega
    subst hak
    rw [regenerateLoop]
    simp [hok]
  | succ n ih =>
    intro attempt k h1 h2 hk hall hok
    have hlt : attempt < k := by omega
    rw [regenerateLoop]
    simp only [hall attempt le_rfl hlt, if_true]
    have hge : ¬ attempt + 1 ≥ max_attempts := by omega
    simp only [if_neg hge]
    exact ih (attempt + 1) k (by omega) (by omega) hk
      (fun i hi1 hi2 => hall i (by omega) hi2) hok

/-! ## Claims -/

/-- C1: for a call on one's own identity, the handle-generation loop of
`regenerate_profile_uid` terminates: if all `max_attempts` (= 10) candidates
conflict it returns the fatal allocation error, and if the first success
comes after `k < max_attempts` conflicts it returns that candidate with the
profile row updated. The bound is the named constant `max_attempts`. -/
theorem regenerate_retries_and_bounds (db : List Profile) (target : Nat)
    (gen : Nat → String) :
    ((∀ i, i < max_attempts → uidConflict db target (gen i) = true) →
      regenerate_profile_uid target target db gen = .error .allocFailed) ∧
    (∀ k, k < max_attempts →
      (∀ i, i < k → uidConflict db target (gen i) = true) →
      uidConflict db target (gen k) = false →
      regenerate_profile_uid target target db gen =
        .ok (gen k, setUid db target (gen k))) := by
  constructor
  · intro hall
    unfold regenerate_profile_uid
    simp only [ne_eq, not_true_eq_false, if_false]
    exact regenerateLoop_error_of_conflicts db target gen max_attempts 0 rfl
      (by decide) hall
  · intro k hk hpre hok
    unfold regenerate_profile_uid
    simp only [ne_eq, not_true_eq_false, if_false]
    exact regenerateLoop_ok_of_first_success db target gen k 0 k rfl
      (Nat.zero_le k) hk (fun i _ hi2 => hpre i hi2) hok

/-- C1 witness: with three synthetic collisions the fourth candidate is
persisted and returned; with every candidate colliding the loop gives up with
the fatal error. -/
theorem regenerate_retries_and_bounds_witness :
    regenerate_profile_uid 1 1
      [⟨1, "a", "aaaaaaaa", "c"⟩, ⟨2, "b", "bbbbbbbb", "c"⟩]
      (fun i => if i < 3 then "bbbbbbbb" else "cccccccc") =
      .ok ("cccccccc",
        [⟨1, "a", "cccccccc", "c"⟩, ⟨2, "b", "bbbbbbbb", "c"⟩]) ∧
    regenerate_profile_uid 1 1
      [⟨1, "a", "aaaaaaaa", "c"⟩, ⟨2, "b", "bbbbbbbb", "c"⟩]
      (fun _ => "bbbbbbbb") = .error .allocFailed := by
  constructor
  · exact (regenerate_retries_and_bounds _ 1 _).2 3 (by decide) (by decide)
      (by decide)
  · exact (regenerate_retries_and_bounds _ 1 _).1 (fun i _ => by decide)

/-- C4: the claim that every regenerated handle has exactly 8 characters
fails on the client path. `handleRegenerateUid` (Settings.tsx) writes
`Math.random().toString(36).substring(2, 10)` straight into the profile row;
for the draw `Math.random() = 0.5` (i.e. 1/2) `toString(36)` prints `"0.i"`
and the substring is the single character `"i"` — not 8 characters and not a
hash truncation (the server routine `regenerate_profile_uid` that does hash
and truncate is never invoked by this handler). -/
theorem client_regenerate_uid_not_eight_chars :
    jsToString36 1 2 = "0.i" ∧
    handleRegenerateUid_newUid 1 2 = "i" ∧
    (handleRegenerateUid_newUid 1 2).length ≠ 8 := by
  refine ⟨rfl, rfl, by decide⟩

/-- C5: `lookup_profile_by_uid` returns empty on any input whose length is
not 8 — for every storage state, i.e. without consulting storage — and never
fails; and for an 8-character handle held by a profile row, under the
global handle-uniqueness invariant it returns exactly that row's
`(user_id, name)` pair. -/
theorem lookup_rejects_and_resolves (db : List Profile) (u : String) :
    (u.length ≠ 8 → ∀ db' : List Profile,
      lookup_profile_by_uid db' (some u) = none) ∧
    (db.Pairwise (fun p q => p.uid ≠ q.uid) →
      ∀ p ∈ db, p.uid = u → u.length = 8 →
      lookup_profile_by_uid db (some u) = some (p.user_id, p.name)) := by
  constructor
  · intro hlen db'
    simp [lookup_profile_by_uid, hlen]
  · intro huniq p hp hpu hlen
    have hfind : db.find? (fun q => q.uid = u) = some p := by
      apply find?_eq_some_of_unique db _ p hp (by simp [hpu])
      intro b hb hbu
      simp only [decide_eq_true_eq] at hbu
      by_contra hne
      exact (huniq.forall (fun x y h => (h ∘ Eq.symm)) hb hp hne)
        (hbu.trans hpu.symm)
    simp [lookup_profile_by_uid, hlen, hfind]

/-- C5 witness: a 3-character input is rejected against any storage state,
and the 8-character handle of a stored profile resolves to exactly that
profile's identity and display name. -/
theorem lookup_rejects_and_resolves_witness :
    lookup_profile_by_uid [⟨2, "bob", "zz99yy88", "#f"⟩] (some "abc") = none ∧
    lookup_profile_by_uid
      [⟨1, "alice", "ab12cd34", "#e"⟩, ⟨2, "bob", "zz99yy88", "#f"⟩]
      (some "zz99yy88") = some (2, "bob") := by
  constructor
  · exact (lookup_rejects_and_resolves [] "abc").1 (by decide) _
  · exact (lookup_rejects_and_resolves _ "zz99yy88").2 (by decide)
      ⟨2, "bob", "zz99yy88", "#f"⟩ (by decide) rfl (by decide)

/-- C2 counterexample: the fetch of `fetchMessages` orders by `created_at`
alone, so with two thread messages sharing a creation timestamp BOTH orders
are possible query results — the returned order is not deterministic, there
is no secondary tie-break key. -/
theorem fetch_order_not_deterministic :
    isFetchResult
      [⟨1, 10, 20, "x", none, false, 100, 100⟩,
       ⟨2, 20, 10, "y", none, false, 100, 100⟩] 10 20
      [⟨1, 10, 20, "x", none, false, 100, 100⟩,
       ⟨2, 20, 10, "y", none, false, 100, 100⟩] ∧
    isFetchResult
      [⟨1, 10, 20, "x", none, false, 100, 100⟩,
       ⟨2, 20, 10, "y", none, false, 100, 100⟩] 10 20
      [⟨2, 20, 10, "y", none, false, 100, 100⟩,
       ⟨1, 10, 20, "x", none, false, 100, 100⟩] ∧
    ([⟨1, 10, 20, "x", none, false, 100, 100⟩,
      ⟨2, 20, 10, "y", none, false, 100, 100⟩] ≠
     ([⟨2, 20, 10, "y", none, false, 100, 100⟩,
       ⟨1, 10, 20, "x", none, false, 100, 100⟩] : List Msg)) := by
  refine ⟨⟨by decide, by decide⟩, ⟨by decide, by decide⟩, by decide⟩

/-- C2 (amended): any possible fetch result lists messages with strictly
increasing creation timestamps in timestamp order, and the fetched row set is
the same whichever party opens the thread; but ties carry no secondary key,
so equal-timestamp order is not determined (see the counterexample). -/
theorem thread_order_increasing (db : List Msg) (s p : Nat) (l : List Msg) :
    (isFetchResult db s p l →
      ∀ i j : Fin l.length,
        (l.get i).created_at < (l.get j).created_at → (i : Nat) < (j : Nat)) ∧
    db.filter (threadFilter s p) = db.filter (threadFilter p s) ∧
    (isFetchResult db s p l ↔ isFetchResult db p s l) := by
  have hfilter : db.filter (threadFilter s p) =
      db.filter (threadFilter p s) := by
    apply List.filter_congr
    intro m _
    simp only [threadFilter]
    exact Bool.or_comm _ _
  refine ⟨?_, hfilter, ?_⟩
  · intro hfr i j hlt
    by_contra hij
    push_neg at hij
    rcases Nat.lt_or_ge (j : Nat) (i : Nat) with hji | hji
    · have := hfr.2.rel_get_of_lt (a := j) (b := i) hji
      omega
    · have : i = j := Fin.ext (by omega)
      subst this
      omega
  · unfold isFetchResult
    rw [hfilter]

/-- C2 witness: on a two-message thread with timestamps 100 < 200 the earlier
message occupies the earlier position, and both parties' filters select the
same rows. -/
theorem thread_order_increasing_witness :
    (0 : Nat) < 1 ∧
    ([⟨1, 10, 20, "x", none, false, 100, 100⟩,
      ⟨2, 20, 10, "y", none, false, 200, 200⟩] : List Msg).filter
        (threadFilter 10 20) =
    ([⟨1, 10, 20, "x", none, false, 100, 100⟩,
      ⟨2, 20, 10, "y", none, false, 200, 200⟩] : List Msg).filter
        (threadFilter 20 10) := by
  constructor
  · exact (thread_order_increasing
      [⟨1, 10, 20, "x", none, false, 100, 100⟩,
       ⟨2, 20, 10, "y", none, false, 200, 200⟩] 10 20
      [⟨1, 10, 20, "x", none, false, 100, 100⟩,
       ⟨2, 20, 10, "y", none, false, 200, 200⟩]).1 ⟨by decide, by decide⟩
      ⟨0, by decide⟩ ⟨1, by decide⟩ (by decide)
  · exact (thread_order_increasing _ 10 20 []).2.1

/-- C3: with a first send accepted at `t1`, a second send attempted at `t2`
with `t2 - t1 < MESSAGE_COOLDOWN` (500 ms, measured from the previous
accepted send because `lastMessageTime` is advanced only on success) leaves
the state unchanged — silently dropped, not queued and no error — so exactly
one message is persisted. -/
theorem send_cooldown_drops_second (st0 : ChatState) (t1 t2 : Int)
    (selfId peerId : Nat) (c1 c2 : String) (r1 r2 : Option Nat)
    (id1 id2 : Nat)
    (h1trim : ¬ jsTrim c1 = "")
    (h1valid : validate_message_content (jsTrim c1) = true)
    (h1cool : ¬ t1 - st0.lastMessageTime < MESSAGE_COOLDOWN)
    (h2cool : t2 - t1 < MESSAGE_COOLDOWN) :
    handleSendMessage (handleSendMessage st0 t1 selfId peerId c1 r1 id1) t2
        selfId peerId c2 r2 id2 =
      handleSendMessage st0 t1 selfId peerId c1 r1 id1 ∧
    (handleSendMessage st0 t1 selfId peerId c1 r1 id1).db =
      st0.db ++ [⟨id1, selfId, peerId, jsTrim c1, r1, false, t1, t1⟩] := by
  have hst1 : handleSendMessage st0 t1 selfId peerId c1 r1 id1 =
      { lastMessageTime := t1,
        db := st0.db ++
          [⟨id1, selfId, peerId, jsTrim c1, r1, false, t1, t1⟩] } := by
    unfold handleSendMessage
    rw [if_neg h1trim, if_neg h1cool, if_neg (by simp [h1valid])]
  refine ⟨?_, by rw [hst1]⟩
  rw [hst1]
  unfold handleSendMessage
  by_cases h2trim : jsTrim c2 = ""
  · rw [if_pos h2trim]
  · rw [if_neg h2trim, if_pos h2cool]

/-- C3 witness: a send at 1000 ms followed by a second attempt at 1300 ms
persists exactly the first message; the second attempt changes nothing. -/
theorem send_cooldown_drops_second_witness :
    handleSendMessage
      (handleSendMessage ⟨0, []⟩ 1000 1 2 "hello" none 7) 1300 1 2
      "again" none 8 =
      handleSendMessage ⟨0, []⟩ 1000 1 2 "hello" none 7 ∧
    (handleSendMessage ⟨0, []⟩ 1000 1 2 "hello" none 7).db =
      [⟨7, 1, 2, jsTrim "hello", none, false, 1000, 1000⟩] := by
  exact send_cooldown_drops_second ⟨0, []⟩ 1000 1300 1 2 "hello" "again"
    none none 7 8 (by decide) (by decide) (by decide) (by decide)


lemma find?_isSome_of_mem {α : Type} (l : List α) (p : α → Bool) (a : α)
    (ha : a ∈ l) (hp : p a = true) : (l.find? p).isSome = true := by
  induction l with
  | nil => cases ha
  | cons x xs ih =>
    by_cases hx : p x = true
    · simp [List.find?, hx]
    · simp only [Bool.not_eq_true] at hx
      simp only [List.find?, hx]
      rcases List.mem_cons.mp ha with h | h
      · subst h; exact absurd hp (by simp [hx])
      · exact ih h

/-- C6: deleting a message that others reply to leaves the dependents in
place with their reply-reference set to NULL (the `ON DELETE SET NULL`
foreign-key action); a subsequent fetch still returns each dependent, its
reply preview resolves as absent, and nothing fails. -/
theorem delete_voids_reply_reference (db : List Msg) (mid : Nat) (m : Msg)
    (viewerId : Nat) (viewerProfileName : Option String) (peerName : String)
    (hm : m ∈ db) (href : m.reply_to_id = some mid) (hne : m.id ≠ mid) :
    { m with reply_to_id := (none : Option Nat) } ∈ deleteMessage db mid ∧
    resolvePreview (deleteMessage db mid) viewerId viewerProfileName peerName
      { m with reply_to_id := (none : Option Nat) } = none ∧
    ∀ s p, threadFilter s p m = true →
      { m with reply_to_id := (none : Option Nat) } ∈
        (deleteMessage db mid).filter (threadFilter s p) := by
  have hmem : { m with reply_to_id := (none : Option Nat) } ∈
      deleteMessage db mid := by
    unfold deleteMessage
    have hmf : m ∈ db.filter fun x => x.id ≠ mid :=
      List.mem_filter.mpr ⟨hm, by simp [hne]⟩
    have := List.mem_map_of_mem
      (fun x => if x.reply_to_id = some mid then
        { x with reply_to_id := none } else x) hmf
    simpa [href] using this
  refine ⟨hmem, rfl, ?_⟩
  intro s p hsp
  exact List.mem_filter.mpr ⟨hmem, hsp⟩

/-- C6 witness: deleting message 5, which message 6 replies to, keeps the
voided message 6 in the store and in the fetched thread, with its preview
resolving to nothing. -/
theorem delete_voids_reply_reference_witness :
    ({ id := 6, sender_id := 10, receiver_id := 20, content := "d",
       reply_to_id := none, is_edited := false, created_at := 2,
       updated_at := 2 } : Msg) ∈
      deleteMessage
        [⟨5, 20, 10, "orig", none, false, 1, 1⟩,
         ⟨6, 10, 20, "d", some 5, false, 2, 2⟩] 5 ∧
    resolvePreview
      (deleteMessage
        [⟨5, 20, 10, "orig", none, false, 1, 1⟩,
         ⟨6, 10, 20, "d", some 5, false, 2, 2⟩] 5) 10 (some "me") "peer"
      ⟨6, 10, 20, "d", none, false, 2, 2⟩ = none ∧
    (⟨6, 10, 20, "d", none, false, 2, 2⟩ : Msg) ∈
      (deleteMessage
        [⟨5, 20, 10, "orig", none, false, 1, 1⟩,
         ⟨6, 10, 20, "d", some 5, false, 2, 2⟩] 5).filter
        (threadFilter 10 20) := by
  have h := delete_voids_reply_reference
    [⟨5, 20, 10, "orig", none, false, 1, 1⟩,
     ⟨6, 10, 20, "d", some 5, false, 2, 2⟩] 5
    ⟨6, 10, 20, "d", some 5, false, 2, 2⟩ 10 (some "me") "peer"
    (by decide) rfl (by decide)
  exact ⟨h.1, h.2.1, h.2.2 10 20 (by decide)⟩

lemma dropWhile_replicate_self {α : Type} (p : α → Bool) (a : α)
    (h : p a = false) (n : Nat) :
    (List.replicate n a).dropWhile p = List.replicate n a := by
  cases n with
  | zero => rfl
  | succ k => simp [List.replicate_succ, List.dropWhile_cons, h]

lemma jsTrim_mk_replicate (c : Char) (h : c.isWhitespace = false) (n : Nat) :
    jsTrim (String.mk (List.replicate n c)) =
      String.mk (List.replicate n c) := by
  unfold jsTrim
  rw [show (String.mk (List.replicate n c)).toList = List.replicate n c
        from rfl,
      dropWhile_replicate_self _ _ h, List.reverse_replicate,
      dropWhile_replicate_self _ _ h, List.reverse_replicate]

/-- C9 counterexample: an edit by the sender whose new content is 10001
characters ('a' repeated) has a non-empty trim, yet the
`validate_message_content` trigger (BEFORE UPDATE, 10000-character cap)
raises and the store is unchanged — the content is not replaced and the
edited flag stays false, contradicting the claim as stated. -/
theorem edit_over_cap_rejected :
    ¬ jsTrim (String.mk (List.replicate 10001 'a')) = "" ∧
    handleEditMessage [⟨5, 1, 2, "hi", none, false, 1, 1⟩] 1 5
      (String.mk (List.replicate 10001 'a')) 9 =
      [⟨5, 1, 2, "hi", none, false, 1, 1⟩] := by
  have hlen : (String.mk (List.replicate 10001 'a')).length = 10001 := by
    show (List.replicate 10001 'a').length = 10001
    exact List.length_replicate 10001 'a'
  have htrim : jsTrim (String.mk (List.replicate 10001 'a')) =
      String.mk (List.replicate 10001 'a') :=
    jsTrim_mk_replicate 'a' (by decide) 10001
  have hne : ¬ jsTrim (String.mk (List.replicate 10001 'a')) = "" := by
    rw [htrim]
    intro hcontra
    have hl := congrArg String.length hcontra
    rw [hlen] at hl
    rw [show ("" : String).length = 0 from rfl] at hl
    exact absurd hl (by decide)
  have hval : validate_message_content
      (jsTrim (String.mk (List.replicate 10001 'a'))) = false := by
    rw [htrim]
    unfold validate_message_content
    rw [htrim, hlen]
    decide
  refine ⟨hne, ?_⟩
  unfold handleEditMessage
  rw [if_neg hne, if_pos (by rw [hval]; rfl)]

/-- C9 (amended): an edit by the sender with non-empty trimmed content that
passes the storage content validation (`validate_message_content`, the
BEFORE UPDATE trigger: trimmed content non-empty and at most 10000
characters) replaces the content, sets the edited flag, stamps `updated_at`
with the trigger's clock, and leaves id, sender, receiver, reply reference
and the creation timestamp untouched; all other rows are unchanged. -/
theorem edit_updates_content_preserves_frame (db : List Msg)
    (caller mid : Nat) (editContent : String) (now : Int) (m : Msg)
    (hm : m ∈ db) (hid : m.id = mid) (hsender : m.sender_id = caller)
    (htrim : ¬ jsTrim editContent = "")
    (hvalid : validate_message_content (jsTrim editContent) = true) :
    { m with content := jsTrim editContent, is_edited := true,
             updated_at := now } ∈
      handleEditMessage db caller mid editContent now ∧
    (∀ m2 ∈ db, m2.id ≠ mid →
      m2 ∈ handleEditMessage db caller mid editContent now) ∧
    ({ m with content := jsTrim editContent, is_edited := true,
              updated_at := now } : Msg).id = m.id ∧
    ({ m with content := jsTrim editContent, is_edited := true,
              updated_at := now } : Msg).sender_id = m.sender_id ∧
    ({ m with content := jsTrim editContent, is_edited := true,
              updated_at := now } : Msg).receiver_id = m.receiver_id ∧
    ({ m with content := jsTrim editContent, is_edited := true,
              updated_at := now } : Msg).created_at = m.created_at ∧
    ({ m with content := jsTrim editContent, is_edited := true,
              updated_at := now } : Msg).reply_to_id = m.reply_to_id ∧
    ({ m with content := jsTrim editContent, is_edited := true,
              updated_at := now } : Msg).is_edited = true ∧
    ({ m with content := jsTrim editContent, is_edited := true,
              updated_at := now } : Msg).content = jsTrim editContent ∧
    ({ m with content := jsTrim editContent, is_edited := true,
              updated_at := now } : Msg).updated_at = now := by
  refine ⟨?_, ?_, rfl, rfl, rfl, rfl, rfl, rfl, rfl, rfl⟩
  · unfold handleEditMessage
    rw [if_neg htrim, if_neg (by simp [hvalid])]
    have := List.mem_map_of_mem
      (fun x => if x.id = mid && x.sender_id = caller then
        { x with content := jsTrim editContent, is_edited := true,
                 updated_at := now } else x) hm
    simpa [hid, hsender] using this
  · intro m2 hm2 hne
    unfold handleEditMessage
    rw [if_neg htrim, if_neg (by simp [hvalid])]
    have := List.mem_map_of_mem
      (fun x => if x.id = mid && x.sender_id = caller then
        { x with content := jsTrim editContent, is_edited := true,
                 updated_at := now } else x) hm2
    simpa [hne] using this

/-- C9 witness: editing message 5 to "hi!" at time 9 yields the updated
row with its frame intact while the unrelated message 6 is untouched. -/
theorem edit_updates_content_preserves_frame_witness :
    ({ id := 5, sender_id := 1, receiver_id := 2, content := jsTrim "hi!",
       is_edited := true, created_at := 1, updated_at := 9,
       reply_to_id := none } : Msg) ∈
      handleEditMessage
        [⟨5, 1, 2, "hi", none, false, 1, 1⟩,
         ⟨6, 2, 1, "yo", none, false, 2, 2⟩] 1 5 "hi!" 9 ∧
    (⟨6, 2, 1, "yo", none, false, 2, 2⟩ : Msg) ∈
      handleEditMessage
        [⟨5, 1, 2, "hi", none, false, 1, 1⟩,
         ⟨6, 2, 1, "yo", none, false, 2, 2⟩] 1 5 "hi!" 9 := by
  have h := edit_updates_content_preserves_frame
    [⟨5, 1, 2, "hi", none, false, 1, 1⟩,
     ⟨6, 2, 1, "yo", none, false, 2, 2⟩] 1 5 "hi!" 9
    ⟨5, 1, 2, "hi", none, false, 1, 1⟩ (by decide) rfl rfl (by decide)
    (by decide)
  exact ⟨h.1, h.2.1 ⟨6, 2, 1, "yo", none, false, 2, 2⟩ (by decide) (by decide)⟩


/-- C10: reply-preview attribution during a thread fetch uses the viewer's
own display name when the referenced message was sent by the viewer, and the
currently open peer's display name in EVERY other case — including when the
referenced message was sent by a third identity. -/
theorem reply_preview_attribution (db : List Msg) (m r : Msg) (rid : Nat)
    (viewerId : Nat) (vn pn : String)
    (hids : (db.map Msg.id).Nodup) (hr : r ∈ db) (hrid : r.id = rid)
    (href : m.reply_to_id = some rid) :
    (r.sender_id = viewerId →
      resolvePreview db viewerId (some vn) pn m = some (r.content, vn)) ∧
    (r.sender_id ≠ viewerId →
      resolvePreview db viewerId (some vn) pn m = some (r.content, pn)) := by
  have hfind : db.find? (fun x => x.id = rid) = some r := by
    apply find?_eq_some_of_unique db _ r hr (by simp [hrid])
    intro b hb hbid
    simp only [decide_eq_true_eq] at hbid
    exact List.inj_on_of_nodup_map hids hb hr (hbid.trans hrid.symm)
  constructor
  · intro hs
    simp [resolvePreview, href, hfind, previewSenderName, hs]
  · intro hs
    simp [resolvePreview, href, hfind, previewSenderName, hs]

/-- C10 witness: a reply whose referenced message was sent by third party
30 is attributed to the open peer's name, and one sent by the viewer to the
viewer's own name. -/
theorem reply_preview_attribution_witness :
    resolvePreview [⟨5, 30, 40, "third", none, false, 1, 1⟩] 10 (some "me")
      "peer" ⟨6, 10, 20, "re", some 5, false, 2, 2⟩ =
      some ("third", "peer") ∧
    resolvePreview [⟨5, 10, 40, "mine", none, false, 1, 1⟩] 10 (some "me")
      "peer" ⟨6, 10, 20, "re", some 5, false, 2, 2⟩ =
      some ("mine", "me") := by
  constructor
  · exact (reply_preview_attribution [⟨5, 30, 40, "third", none, false, 1, 1⟩]
      ⟨6, 10, 20, "re", some 5, false, 2, 2⟩
      ⟨5, 30, 40, "third", none, false, 1, 1⟩ 5 10 "me" "peer"
      (by decide) (by decide) rfl rfl).2 (by decide)
  · exact (reply_preview_attribution [⟨5, 10, 40, "mine", none, false, 1, 1⟩]
      ⟨6, 10, 20, "re", some 5, false, 2, 2⟩
      ⟨5, 10, 40, "mine", none, false, 1, 1⟩ 5 10 "me" "peer"
      (by decide) (by decide) rfl rfl).1 rfl


/-- C7: `handleAddContact` performs its four checks with pairwise distinct
error reasons, each short-circuiting (an earlier failure fixes the result
regardless of everything the later checks would read), the edge is inserted
only when all four pass, and one's own handle — a stored profile row carrying
the caller's id and that uid, under handle uniqueness — always fails with the
self-reference reason whatever the contact state. -/
theorem addContact_checks_and_self (selfId : Nat) (searchUid : String)
    (profiles : List Profile) (contacts : List ContactView)
    (edges : List ContactEdge) (newEdgeId : Nat)
    (hne : ¬ jsTrim searchUid = "") :
    ([AddContactError.wrongLength, .notFound, .selfContact, .alreadyAdded,
      .insertFailed] : List AddContactError).Nodup ∧
    ((jsTrim searchUid).length ≠ 8 →
      handleAddContact selfId searchUid profiles contacts edges newEdgeId =
        .error .wrongLength) ∧
    ((jsTrim searchUid).length = 8 →
      lookup_profile_by_uid profiles (some (jsTrim searchUid)) = none →
      handleAddContact selfId searchUid profiles contacts edges newEdgeId =
        .error .notFound) ∧
    (∀ nm, lookup_profile_by_uid profiles (some (jsTrim searchUid)) =
        some (selfId, nm) →
      handleAddContact selfId searchUid profiles contacts edges newEdgeId =
        .error .selfContact) ∧
    (∀ uid' nm, lookup_profile_by_uid profiles (some (jsTrim searchUid)) =
        some (uid', nm) → uid' ≠ selfId →
      (contacts.find? fun c => c.contact_user_id = uid').isSome = true →
      handleAddContact selfId searchUid profiles contacts edges newEdgeId =
        .error .alreadyAdded) ∧
    (∀ uid' nm, lookup_profile_by_uid profiles (some (jsTrim searchUid)) =
        some (uid', nm) → uid' ≠ selfId →
      (contacts.find? fun c => c.contact_user_id = uid').isSome = false →
      (edges.any fun x =>
        x.user_id = selfId && x.contact_user_id = uid') = false →
      handleAddContact selfId searchUid profiles contacts edges newEdgeId =
        .ok (edges ++ [⟨newEdgeId, selfId, uid'⟩])) ∧
    (profiles.Pairwise (fun p q => p.uid ≠ q.uid) →
      ∀ nm col, (⟨selfId, nm, jsTrim searchUid, col⟩ : Profile) ∈ profiles →
      (jsTrim searchUid).length = 8 →
      handleAddContact selfId searchUid profiles contacts edges newEdgeId =
        .error .selfContact) := by
  have hself : ∀ nm, lookup_profile_by_uid profiles (some (jsTrim searchUid)) =
      some (selfId, nm) →
      handleAddContact selfId searchUid profiles contacts edges newEdgeId =
        .error .selfContact := by
    intro nm hlookup
    have hlen : ¬ (jsTrim searchUid).length ≠ 8 := by
      intro h
      simp [lookup_profile_by_uid, h] at hlookup
    unfold handleAddContact
    rw [if_neg hne]
    dsimp only
    rw [if_neg hlen, hlookup]
    dsimp only
    rw [if_pos rfl]
  refine ⟨by decide, ?_, ?_, hself, ?_, ?_, ?_⟩
  · intro hlen
    unfold handleAddContact
    rw [if_neg hne]
    dsimp only
    rw [if_pos hlen]
  · intro hlen8 hlookup
    unfold handleAddContact
    rw [if_neg hne]
    dsimp only
    rw [if_neg (by simp [hlen8]), hlookup]
  · intro uid' nm hlookup huid hfound
    have hlen : ¬ (jsTrim searchUid).length ≠ 8 := by
      intro h
      simp [lookup_profile_by_uid, h] at hlookup
    unfold handleAddContact
    rw [if_neg hne]
    dsimp only
    rw [if_neg hlen, hlookup]
    dsimp only
    rw [if_neg huid, if_pos hfound]
  · intro uid' nm hlookup huid hfound hdup
    have hlen : ¬ (jsTrim searchUid).length ≠ 8 := by
      intro h
      simp [lookup_profile_by_uid, h] at hlookup
    unfold handleAddContact
    rw [if_neg hne]
    dsimp only
    rw [if_neg hlen, hlookup]
    dsimp only
    rw [if_neg huid, if_neg (by simp [hfound])]
    simp [insertEdge, hdup]
  · intro huniq nm col hmem hlen8
    apply hself nm
    have hfind : profiles.find? (fun p => p.uid = jsTrim searchUid) =
        some ⟨selfId, nm, jsTrim searchUid, col⟩ := by
      apply find?_eq_some_of_unique profiles _ _ hmem (by simp)
      intro b hb hbu
      simp only [decide_eq_true_eq] at hbu
      by_contra hbne
      exact (huniq.forall (fun x y h => (h ∘ Eq.symm)) hb hmem hbne) hbu
    simp [lookup_profile_by_uid, hlen8, hfind]


/-- C7 witness: a 3-character uid fails the format check, the caller's own
handle fails with the self reason, and a fresh peer's handle creates exactly
the new edge. -/
theorem addContact_checks_and_self_witness :
    handleAddContact 1 "abc"
      [⟨1, "alice", "ab12cd34", "#e"⟩, ⟨2, "bob", "zz99yy88", "#f"⟩]
      [] [] 9 = .error .wrongLength ∧
    handleAddContact 1 "ab12cd34"
      [⟨1, "alice", "ab12cd34", "#e"⟩, ⟨2, "bob", "zz99yy88", "#f"⟩]
      [] [] 9 = .error .selfContact ∧
    handleAddContact 1 "zz99yy88"
      [⟨1, "alice", "ab12cd34", "#e"⟩, ⟨2, "bob", "zz99yy88", "#f"⟩]
      [] [] 9 = .ok [⟨9, 1, 2⟩] := by
  refine ⟨?_, ?_, ?_⟩
  · exact (addContact_checks_and_self 1 "abc"
      [⟨1, "alice", "ab12cd34", "#e"⟩, ⟨2, "bob", "zz99yy88", "#f"⟩]
      [] [] 9 (by decide)).2.1 (by decide)
  · exact (addContact_checks_and_self 1 "ab12cd34"
      [⟨1, "alice", "ab12cd34", "#e"⟩, ⟨2, "bob", "zz99yy88", "#f"⟩]
      [] [] 9 (by decide)).2.2.2.2.2.2 (by decide) "alice" "#e"
      (by decide) (by decide)
  · exact (addContact_checks_and_self 1 "zz99yy88"
      [⟨1, "alice", "ab12cd34", "#e"⟩, ⟨2, "bob", "zz99yy88", "#f"⟩]
      [] [] 9 (by decide)).2.2.2.2.2.1 2 "bob" rfl (by decide) rfl rfl

/-- C8: once an edge (owner, peer) exists in the store, a second
`handleAddContact` by the same owner for the same peer — with the contact
list refetched from the store, as the component does after every successful
add — fails with the distinct duplicate reason, not the generic insert
failure, and returns no new edge list. -/
theorem addContact_duplicate_reason (selfId peer : Nat) (searchUid : String)
    (profiles : List Profile) (edges : List ContactEdge) (newEdgeId : Nat)
    (nm : String) (e : ContactEdge)
    (hne : ¬ jsTrim searchUid = "")
    (hlookup : lookup_profile_by_uid profiles (some (jsTrim searchUid)) =
      some (peer, nm))
    (hpeer : peer ≠ selfId)
    (he : e ∈ edges) (heu : e.user_id = selfId) (hec : e.contact_user_id = peer) :
    handleAddContact selfId searchUid profiles
      (fetchContacts edges profiles selfId) edges newEdgeId =
      .error .alreadyAdded ∧
    AddContactError.alreadyAdded ≠ AddContactError.insertFailed := by
  refine ⟨?_, by decide⟩
  have hlen : ¬ (jsTrim searchUid).length ≠ 8 := by
    intro h
    simp [lookup_profile_by_uid, h] at hlookup
  have hef : e ∈ edges.filter fun x => x.user_id = selfId :=
    List.mem_filter.mpr ⟨he, by simp [heu]⟩
  have hfound : ((fetchContacts edges profiles selfId).find? fun c =>
      c.contact_user_id = peer).isSome = true := by
    unfold fetchContacts
    apply find?_isSome_of_mem _ _ _ (List.mem_map_of_mem _ hef)
    cases profiles.find? fun p => p.user_id = e.contact_user_id <;>
      simp [hec]
  unfold handleAddContact
  rw [if_neg hne]
  dsimp only
  rw [if_neg hlen, hlookup]
  dsimp only
  rw [if_neg hpeer, if_pos hfound]

/-- C8 witness: with edge (1,2) stored and reflected by `fetchContacts`,
adding bob's handle again yields the duplicate error. -/
theorem addContact_duplicate_reason_witness :
    handleAddContact 1 "zz99yy88" [⟨2, "bob", "zz99yy88", "#f"⟩]
      (fetchContacts [⟨3, 1, 2⟩] [⟨2, "bob", "zz99yy88", "#f"⟩] 1)
      [⟨3, 1, 2⟩] 9 = .error .alreadyAdded ∧
    AddContactError.alreadyAdded ≠ AddContactError.insertFailed := by
  exact addContact_duplicate_reason 1 2 "zz99yy88"
    [⟨2, "bob", "zz99yy88", "#f"⟩] [⟨3, 1, 2⟩] 9 "bob" ⟨3, 1, 2⟩
    (by decide) rfl (by decide) (by decide) rfl rfl


end Pagion
